import Mathlib

/-!
Cloudreve, `pkg/serializer/error.go`.

A shallow embedding of the error carrier (`AppError`) and of the response
reducers (`Err`, `DBErr`, `ParamErr`) of `pkg/serializer/error.go`, with the
properties of the specification stated and proved over it.

Modelling conventions.

* A value of Go's `error` interface is an `Option GoError`: `none` is the nil
  interface, `some e` a non-nil one whose dynamic value is `e`.
* A Go pointer (`*Response`, the `*AppError` receiver of `WithError`) is an
  `Option` of the pointee: `none` is the nil pointer, whose dereference
  panics; a panic is the result `none` of the operation.
* `gin.Mode()` is the only read of the environment; it is passed explicitly
  as the first argument `ginMode` of every reducer.
* Go's `int` codes are only copied and compared, never computed with, so they
  are `Int`.
* `GoError` holds the error values whose `Error()` returns, and the envelope
  `Err` builds from them. Whether `Err` returns at all is asked over the larger
  `GoIface`, which adds pointers to carriers, the nil pointer included, and
  over `ErrChecked`, where `Error()` can panic.
-/

namespace Serializer

/-! Data model -/

/-- Dynamic values a non-nil Go `error` can hold, as far as this package can
tell them apart: `errorString s` is the value built by `errors.New(s)`;
`wrapError msg err` is a wrapping error (as built by `fmt.Errorf` with `%w`)
whose own text is `msg` and whose `Unwrap()` is `err`; `appError` is a value
of the struct type `AppError` (fields `Code`, `Msg`, `RawError`) stored in the
interface. -/
inductive GoError where
  | errorString (s : String)
  | wrapError (msg : String) (err : GoError)
  | appError (Code : Int) (Msg : String) (RawError : Option GoError)

/-- The struct `AppError` of error.go, lines 9-13. -/
structure AppError where
  Code : Int
  Msg : String
  RawError : Option GoError

/-- Modelled from the spec: the struct `Response` (the envelope) is declared
in another file of the package; the spec gives it the fields `code`, `msg` and
`error`, and `Err` writes exactly these three. -/
structure Response where
  Code : Int
  Msg : String
  Error : String
  deriving DecidableEq, Repr

/-- The constant `gin.ReleaseMode` of the web framework. -/
def ReleaseMode : String := "release"

/-- The constant `gin.DebugMode` of the web framework. -/
def DebugMode : String := "debug"

/-- The constant `CodeDBError` (line 116). -/
def CodeDBError : Int := 50001

/-- The constant `CodeParamErr` (line 128). -/
def CodeParamErr : Int := 40001

/-! The carrier -/

/-- An `AppError` value stored in an `error` interface (the implicit
conversion Go performs when an `AppError` is passed where an `error` is
expected). -/
def AppError.toError (a : AppError) : GoError :=
  GoError.appError a.Code a.Msg a.RawError

/-- The function `NewError` (lines 16-22). -/
def NewError (code : Int) (msg : String) (err : Option GoError) : AppError :=
  { Code := code, Msg := msg, RawError := err }

/-- The function `NewErrorFromResponse` (lines 25-31). The argument is a
pointer: on the nil pointer the field reads panic (`none`). `errors.New`
always returns a non-nil error. -/
def NewErrorFromResponse (resp : Option Response) : Option AppError :=
  match resp with
  | none => none
  | some r =>
    some { Code := r.Code, Msg := r.Msg, RawError := some (GoError.errorString r.Error) }

/-- The method `(*AppError).WithError` (lines 34-37), with the receiver passed
explicitly: on a non-nil receiver holding `c` the result is the pair of the
receiver's contents after the call and the returned copy `*err`; on the nil
receiver the field write panics (`none`). -/
def AppError.WithError (err : Option AppError) (raw : Option GoError) :
    Option (AppError × AppError) :=
  match err with
  | none => none
  | some c =>
    let c1 : AppError := { c with RawError := raw }
    some (c1, c1)

/-- The method `AppError.Error` (lines 40-42). -/
def AppError.Error (err : AppError) : String :=
  err.Msg

/-- The method `Error()` of a non-nil `error`, by dynamic type: the stored
text for `errors.New` values and wrappers, `AppError.Error` for a carrier. -/
def GoError.Error : GoError → String
  | GoError.errorString s => s
  | GoError.wrapError msg _ => msg
  | GoError.appError c m r => AppError.Error { Code := c, Msg := m, RawError := r }

/-- The type assertion `err.(AppError)` of line 152: it succeeds exactly when
the interface is non-nil and its dynamic type is `AppError`; it does not look
through wrappers. -/
def assertAppError : Option GoError → Option AppError
  | some (GoError.appError c m r) => some { Code := c, Msg := m, RawError := r }
  | _ => none

/-- The first `AppError` on the unwrap chain of an error, the error itself
included (what `errors.As` with an `AppError` target would find). Only a
wrapper has an `Unwrap()`: `AppError` declares none, so the chain stops at the
first carrier. -/
def chainAppError : GoError → Option AppError
  | GoError.errorString _ => none
  | GoError.wrapError _ err => chainAppError err
  | GoError.appError c m r => some { Code := c, Msg := m, RawError := r }

/-! The reducers -/

/-- The function `Err` (lines 150-167). `ginMode` is the value `gin.Mode()`
returns at the call. The three reassigned variables `errCode`, `err`, `msg`
are rebound after the type assertion; `res.Error` starts as the zero value
`""` of the struct literal. -/
def Err (ginMode : String) (errCode : Int) (msg : String) (err : Option GoError) :
    Response :=
  let (errCode, err, msg) :=
    match assertAppError err with
    | some appError => (appError.Code, appError.RawError, appError.Msg)
    | none => (errCode, err, msg)
  let res : Response := { Code := errCode, Msg := msg, Error := "" }
  match err with
  | some e => if ginMode ≠ ReleaseMode then { res with Error := e.Error } else res
  | none => res

/-- The function `DBErr` (lines 134-139). -/
def DBErr (ginMode : String) (msg : String) (err : Option GoError) : Response :=
  let msg := if msg = "" then "数据库操作失败" else msg
  Err ginMode CodeDBError msg err

/-- The function `ParamErr` (lines 142-147). -/
def ParamErr (ginMode : String) (msg : String) (err : Option GoError) : Response :=
  let msg := if msg = "" then "参数错误" else msg
  Err ginMode CodeParamErr msg err

/-! The code constants (lines 48-131) -/

/-- The constant `CodeNotFullySuccess` (line 50). -/
def CodeNotFullySuccess : Int := 203

/-- The constant `CodeCheckLogin` (line 52). -/
def CodeCheckLogin : Int := 401

/-- The constant `CodeNoPermissionErr` (line 54). -/
def CodeNoPermissionErr : Int := 403

/-- The constant `CodeNotFound` (line 56). -/
def CodeNotFound : Int := 404

/-- The constant `CodeConflict` (line 58). -/
def CodeConflict : Int := 409

/-- The constant `CodeUploadFailed` (line 60). -/
def CodeUploadFailed : Int := 40002

/-- The constant `CodeCreateFolderFailed` (line 62). -/
def CodeCreateFolderFailed : Int := 40003

/-- The constant `CodeObjectExist` (line 64). -/
def CodeObjectExist : Int := 40004

/-- The constant `CodeSignExpired` (line 66). -/
def CodeSignExpired : Int := 40005

/-- The constant `CodePolicyNotAllowed` (line 68). -/
def CodePolicyNotAllowed : Int := 40006

/-- The constant `CodeGroupNotAllowed` (line 70). -/
def CodeGroupNotAllowed : Int := 40007

/-- The constant `CodeAdminRequired` (line 72). -/
def CodeAdminRequired : Int := 40008

/-- The constant `CodeMasterNotFound` (line 74). -/
def CodeMasterNotFound : Int := 40009

/-- The constant `CodeUploadSessionExpired` (line 76). -/
def CodeUploadSessionExpired : Int := 400011

/-- The constant `CodeInvalidChunkIndex` (line 78). -/
def CodeInvalidChunkIndex : Int := 400012

/-- The constant `CodeInvalidContentLength` (line 80). -/
def CodeInvalidContentLength : Int := 400013

/-- The constant `CodeBatchSourceSize` (line 82). -/
def CodeBatchSourceSize : Int := 40014

/-- The constant `CodeBatchAria2Size` (line 84). -/
def CodeBatchAria2Size : Int := 40015

/-- The constant `CodeParentNotExist` (line 86). -/
def CodeParentNotExist : Int := 40016

/-- The constant `CodeUserBaned` (line 88). -/
def CodeUserBaned : Int := 40017

/-- The constant `CodeUserNotActivated` (line 90). -/
def CodeUserNotActivated : Int := 40018

/-- The constant `CodeFeatureNotEnabled` (line 92). -/
def CodeFeatureNotEnabled : Int := 40019

/-- The constant `CodeCredentialInvalid` (line 94). -/
def CodeCredentialInvalid : Int := 40020

/-- The constant `CodeUserNotFound` (line 96). -/
def CodeUserNotFound : Int := 40021

/-- The constant `Code2FACodeErr` (line 98). -/
def Code2FACodeErr : Int := 40022

/-- The constant `CodeLoginSessionNotExist` (line 100). -/
def CodeLoginSessionNotExist : Int := 40023

/-- The constant `CodeInitializeAuthn` (line 102). -/
def CodeInitializeAuthn : Int := 40024

/-- The constant `CodeWebAuthnCredentialError` (line 104). -/
def CodeWebAuthnCredentialError : Int := 40025

/-- The constant `CodeCaptchaError` (line 106). -/
def CodeCaptchaError : Int := 40026

/-- The constant `CodeCaptchaRefreshNeeded` (line 108). -/
def CodeCaptchaRefreshNeeded : Int := 40027

/-- The constant `CodeFailedSendEmail` (line 110). -/
def CodeFailedSendEmail : Int := 40028

/-- The constant `CodeInvalidTempLink` (line 112). -/
def CodeInvalidTempLink : Int := 40029

/-- The constant `CodeTempLinkExpired` (line 114). -/
def CodeTempLinkExpired : Int := 40030

/-- The constant `CodeEncryptError` (line 118). -/
def CodeEncryptError : Int := 50002

/-- The constant `CodeIOFailed` (line 120). -/
def CodeIOFailed : Int := 50004

/-- The constant `CodeInternalSetting` (line 122). -/
def CodeInternalSetting : Int := 50005

/-- The constant `CodeCacheOperation` (line 124). -/
def CodeCacheOperation : Int := 50006

/-- The constant `CodeCallbackError` (line 126). -/
def CodeCallbackError : Int := 50007

/-- The constant `CodeNotSet` (line 130). -/
def CodeNotSet : Int := -1

/-- The constant block of lines 48-131, in declaration order: every declared
name with its value. -/
def codeConstants : List (String × Int) :=
  [
   ("CodeNotFullySuccess", CodeNotFullySuccess),
   ("CodeCheckLogin", CodeCheckLogin),
   ("CodeNoPermissionErr", CodeNoPermissionErr),
   ("CodeNotFound", CodeNotFound),
   ("CodeConflict", CodeConflict),
   ("CodeUploadFailed", CodeUploadFailed),
   ("CodeCreateFolderFailed", CodeCreateFolderFailed),
   ("CodeObjectExist", CodeObjectExist),
   ("CodeSignExpired", CodeSignExpired),
   ("CodePolicyNotAllowed", CodePolicyNotAllowed),
   ("CodeGroupNotAllowed", CodeGroupNotAllowed),
   ("CodeAdminRequired", CodeAdminRequired),
   ("CodeMasterNotFound", CodeMasterNotFound),
   ("CodeUploadSessionExpired", CodeUploadSessionExpired),
   ("CodeInvalidChunkIndex", CodeInvalidChunkIndex),
   ("CodeInvalidContentLength", CodeInvalidContentLength),
   ("CodeBatchSourceSize", CodeBatchSourceSize),
   ("CodeBatchAria2Size", CodeBatchAria2Size),
   ("CodeParentNotExist", CodeParentNotExist),
   ("CodeUserBaned", CodeUserBaned),
   ("CodeUserNotActivated", CodeUserNotActivated),
   ("CodeFeatureNotEnabled", CodeFeatureNotEnabled),
   ("CodeCredentialInvalid", CodeCredentialInvalid),
   ("CodeUserNotFound", CodeUserNotFound),
   ("Code2FACodeErr", Code2FACodeErr),
   ("CodeLoginSessionNotExist", CodeLoginSessionNotExist),
   ("CodeInitializeAuthn", CodeInitializeAuthn),
   ("CodeWebAuthnCredentialError", CodeWebAuthnCredentialError),
   ("CodeCaptchaError", CodeCaptchaError),
   ("CodeCaptchaRefreshNeeded", CodeCaptchaRefreshNeeded),
   ("CodeFailedSendEmail", CodeFailedSendEmail),
   ("CodeInvalidTempLink", CodeInvalidTempLink),
   ("CodeTempLinkExpired", CodeTempLinkExpired),
   ("CodeDBError", CodeDBError),
   ("CodeEncryptError", CodeEncryptError),
   ("CodeIOFailed", CodeIOFailed),
   ("CodeInternalSetting", CodeInternalSetting),
   ("CodeCacheOperation", CodeCacheOperation),
   ("CodeCallbackError", CodeCallbackError),
   ("CodeParamErr", CodeParamErr),
   ("CodeNotSet", CodeNotSet)
  ]

/-- The sentinel class of the taxonomy: the value -1. -/
def isSentinelCode (n : Int) : Bool :=
  n == -1

/-- The three-digit class of the comment at lines 44-47: 100 to 999. -/
def isThreeDigitCode (n : Int) : Bool :=
  decide (100 ≤ n) && decide (n ≤ 999)

/-- The five-digit class of the comment at lines 44-47: 10000 to 99999. -/
def isFiveDigitCode (n : Int) : Bool :=
  decide (10000 ≤ n) && decide (n ≤ 99999)

/-- The leading decimal digit of a five-digit number. -/
def leadingDigitOfFive (n : Int) : Int :=
  n / 10000

/-- The application-defined class of the comment at lines 44-47: five digits,
the first of which is 4 (client side) or 5 (server side). -/
def isAppCode (n : Int) : Bool :=
  isFiveDigitCode n && (leadingDigitOfFive n == 4 || leadingDigitOfFive n == 5)

/-- The number of taxonomy classes (sentinel, three-digit, application-defined)
a value belongs to. -/
def taxonomyClasses (n : Int) : Nat :=
  (if isSentinelCode n then 1 else 0) + (if isThreeDigitCode n then 1 else 0) +
    (if isAppCode n then 1 else 0)

/-- A value is in the taxonomy when it belongs to exactly one class. -/
def inTaxonomy (n : Int) : Bool :=
  taxonomyClasses n == 1

/-! The reducer with the method call as a fallible step -/

/-- Interface values with pointers told apart. `GoError` keeps only values
whose `Error()` returns; an `error` interface can also hold a pointer to an
`AppError` (the method set of `*AppError` contains `Error`), and that pointer
can be nil while the interface holding it is not. `appErrorPtr` is a non-nil
`*AppError` with the fields of its pointee; `nilAppErrorPtr` is the typed nil
pointer `(*AppError)(nil)`; the other three constructors are those of
`GoError`. -/
inductive GoIface where
  | errorString (s : String)
  | wrapError (msg : String) (err : GoIface)
  | appError (Code : Int) (Msg : String) (RawError : Option GoIface)
  | appErrorPtr (Code : Int) (Msg : String) (RawError : Option GoIface)
  | nilAppErrorPtr

/-- The struct `AppError` (lines 9-13) with a `RawError` that ranges over
`GoIface`. -/
structure AppErrorIface where
  Code : Int
  Msg : String
  RawError : Option GoIface

/-- A value of `GoError` seen as a `GoIface`: the same value, constructor by
constructor. -/
def GoError.toIface : GoError → GoIface
  | GoError.errorString s => GoIface.errorString s
  | GoError.wrapError msg err => GoIface.wrapError msg err.toIface
  | GoError.appError c m none => GoIface.appError c m none
  | GoError.appError c m (some r) => GoIface.appError c m (some r.toIface)

/-- The run-time panics a call of `Error()` can raise: `nilInterface` is the
method call on a nil interface (invalid memory address or nil pointer
dereference); `nilReceiver` is the value method `AppError.Error` called using
a nil `*AppError` pointer. -/
inductive Panic where
  | nilInterface
  | nilReceiver
  deriving DecidableEq, Repr

/-- The method `Error()` of a non-nil interface value, by dynamic type. On a
`*AppError` the value-receiver method `AppError.Error` (lines 40-42) is called
on the pointee, so the nil pointer is dereferenced and the call panics. -/
def GoIface.Error : GoIface → Except Panic String
  | GoIface.errorString s => Except.ok s
  | GoIface.wrapError msg _ => Except.ok msg
  | GoIface.appError _ m _ => Except.ok m
  | GoIface.appErrorPtr _ m _ => Except.ok m
  | GoIface.nilAppErrorPtr => Except.error Panic.nilReceiver

/-- The method call `err.Error()` on an interface value: on the nil interface
there is no method to dispatch to and the call panics; on a non-nil one it is
`GoIface.Error`. -/
def callError : Option GoIface → Except Panic String
  | none => Except.error Panic.nilInterface
  | some e => e.Error

/-- The type assertion `err.(AppError)` of line 152 over `GoIface`: it
succeeds only on a value of dynamic type `AppError`, not on a `*AppError`. -/
def assertAppErrorIface : Option GoIface → Option AppErrorIface
  | some (GoIface.appError c m r) => some { Code := c, Msg := m, RawError := r }
  | _ => none

/-- The value of the variable `err` after lines 152-156: the `RawError` of
the carrier when the type assertion succeeds, the cause itself otherwise. -/
def diagnosticSource (err : Option GoIface) : Option GoIface :=
  match assertAppErrorIface err with
  | some appError => appError.RawError
  | none => err

/-- The function `Err` (lines 150-167) once more, over `GoIface` and with the
call `err.Error()` of line 164 as a step that can panic (`callError`), behind
the short-circuit guard `err != nil && gin.Mode() != gin.ReleaseMode` of line
163. The guard compares the interface with nil, so it lets a typed nil pointer
through. -/
def ErrChecked (ginMode : String) (errCode : Int) (msg : String)
    (err : Option GoIface) : Except Panic Response :=
  let (errCode, err, msg) :=
    match assertAppErrorIface err with
    | some appError => (appError.Code, appError.RawError, appError.Msg)
    | none => (errCode, err, msg)
  let res : Response := { Code := errCode, Msg := msg, Error := "" }
  if err.isSome && ginMode != ReleaseMode then
    match callError err with
    | Except.ok text => Except.ok { res with Error := text }
    | Except.error p => Except.error p
  else Except.ok res

/-! Basic facts about the embedding -/

theorem assertAppError_toError (a : AppError) :
    assertAppError (some a.toError) = some a := by
  cases a
  rfl

theorem Err_of_assert_some (ginMode : String) (errCode : Int) (msg : String)
    (err : Option GoError) (a : AppError) (h : assertAppError err = some a) :
    Err ginMode errCode msg err =
      match a.RawError with
      | some e =>
        if ginMode ≠ ReleaseMode then { Code := a.Code, Msg := a.Msg, Error := e.Error }
        else { Code := a.Code, Msg := a.Msg, Error := "" }
      | none => { Code := a.Code, Msg := a.Msg, Error := "" } := by
  unfold Err
  rw [h]

theorem Err_of_assert_none (ginMode : String) (errCode : Int) (msg : String)
    (err : Option GoError) (h : assertAppError err = none) :
    Err ginMode errCode msg err =
      match err with
      | some e =>
        if ginMode ≠ ReleaseMode then { Code := errCode, Msg := msg, Error := e.Error }
        else { Code := errCode, Msg := msg, Error := "" }
      | none => { Code := errCode, Msg := msg, Error := "" } := by
  unfold Err
  rw [h]
  cases err <;> rfl

theorem Err_carrier_fields (ginMode : String) (c : Int) (m : String) (a : AppError) :
    (Err ginMode c m (some a.toError)).Code = a.Code ∧
    (Err ginMode c m (some a.toError)).Msg = a.Msg := by
  rw [Err_of_assert_some ginMode c m _ a (assertAppError_toError a)]
  cases a.RawError with
  | none => exact ⟨rfl, rfl⟩
  | some e => by_cases hm : ginMode ≠ ReleaseMode <;> simp [hm]

theorem Err_noncarrier_defaults (ginMode : String) (c : Int) (m : String)
    (err : Option GoError) (h : assertAppError err = none) :
    (Err ginMode c m err).Code = c ∧ (Err ginMode c m err).Msg = m := by
  rw [Err_of_assert_none ginMode c m err h]
  cases err with
  | none => exact ⟨rfl, rfl⟩
  | some e => by_cases hm : ginMode ≠ ReleaseMode <;> simp [hm]

theorem toIface_Error (e : GoError) : e.toIface.Error = Except.ok e.Error := by
  cases e with
  | errorString s => rfl
  | wrapError msg err => rfl
  | appError c m r => cases r <;> rfl

theorem ErrChecked_toIface (ginMode : String) (c : Int) (m : String)
    (e : Option GoError) :
    ErrChecked ginMode c m (e.map GoError.toIface) = Except.ok (Err ginMode c m e) := by
  cases e with
  | none => rfl
  | some e =>
    cases e with
    | errorString s =>
      by_cases hm : ginMode = ReleaseMode <;>
        simp [hm, ErrChecked, Err, GoError.toIface, assertAppErrorIface, assertAppError,
          callError, GoIface.Error, GoError.Error]
    | wrapError msg err =>
      by_cases hm : ginMode = ReleaseMode <;>
        simp [hm, ErrChecked, Err, GoError.toIface, assertAppErrorIface, assertAppError,
          callError, GoIface.Error, GoError.Error]
    | appError c2 m2 r =>
      cases r with
      | none =>
        simp [ErrChecked, Err, GoError.toIface, assertAppErrorIface, assertAppError]
      | some r =>
        by_cases hm : ginMode = ReleaseMode <;>
          simp [hm, ErrChecked, Err, GoError.toIface, assertAppErrorIface, assertAppError,
            callError, toIface_Error]

theorem ErrChecked_ok_of_source (ginMode : String) (c : Int) (m : String)
    (err : Option GoIface)
    (h : ginMode = ReleaseMode ∨ diagnosticSource err ≠ some GoIface.nilAppErrorPtr) :
    ∃ r : Response, ErrChecked ginMode c m err = Except.ok r := by
  unfold diagnosticSource at h
  unfold ErrChecked
  cases ha : assertAppErrorIface err with
  | none =>
    rw [ha] at h
    cases err with
    | none => simp
    | some e =>
      by_cases hm : ginMode = ReleaseMode
      · simp [hm]
      · cases e <;> simp_all [callError, GoIface.Error]
  | some a =>
    rw [ha] at h
    cases hr : a.RawError with
    | none => simp [hr]
    | some e =>
      by_cases hm : ginMode = ReleaseMode
      · simp [hm]
      · cases e <;> simp_all [callError, GoIface.Error]

/-! Precedence of a carrier over the caller's defaults -/

/-- C1 (precedence law): when the cause is an `AppError` value with code `C2`
and message `M2`, whatever its `RawError` and whatever the execution mode,
`Err C1 M1 cause` has `Code = C2` and `Msg = M2`, and the whole envelope is the
same for any other caller defaults `D1`, `N1`: the defaults do not reach the
result. -/
theorem Err_carrier_precedence (ginMode : String) (C1 : Int) (M1 : String)
    (a : AppError) :
    (Err ginMode C1 M1 (some a.toError)).Code = a.Code ∧
    (Err ginMode C1 M1 (some a.toError)).Msg = a.Msg ∧
    ∀ (D1 : Int) (N1 : String),
      Err ginMode D1 N1 (some a.toError) = Err ginMode C1 M1 (some a.toError) := by
  have key : ∀ (d : Int) (n : String), Err ginMode d n (some a.toError) =
      match a.RawError with
      | some e =>
        if ginMode ≠ ReleaseMode then { Code := a.Code, Msg := a.Msg, Error := e.Error }
        else { Code := a.Code, Msg := a.Msg, Error := "" }
      | none => { Code := a.Code, Msg := a.Msg, Error := "" } :=
    fun d n => Err_of_assert_some ginMode d n _ a (assertAppError_toError a)
  refine ⟨?_, ?_, fun D1 N1 => by rw [key D1 N1, key C1 M1]⟩
  · rw [key]
    cases a.RawError with
    | none => rfl
    | some e => by_cases hm : ginMode ≠ ReleaseMode <;> simp [hm]
  · rw [key]
    cases a.RawError with
    | none => rfl
    | some e => by_cases hm : ginMode ≠ ReleaseMode <;> simp [hm]

/-- C2 (counterexample): the wrapper `w` with text "query: db failed" around
the carrier `AppError(50001, "db failed", nil)` is not itself a carrier and has
that carrier on its unwrap chain, yet `Err 40001 "bad request" w` keeps the
caller's code 40001 and message "bad request" instead of 50001 and
"db failed". -/
theorem Err_wrapped_carrier_not_recovered :
    assertAppError
        (some (GoError.wrapError "query: db failed"
          (GoError.appError 50001 "db failed" none))) = none ∧
    (chainAppError (GoError.wrapError "query: db failed"
        (GoError.appError 50001 "db failed" none))).map AppError.Code = some 50001 ∧
    (chainAppError (GoError.wrapError "query: db failed"
        (GoError.appError 50001 "db failed" none))).map AppError.Msg = some "db failed" ∧
    Err DebugMode 40001 "bad request"
        (some (GoError.wrapError "query: db failed"
          (GoError.appError 50001 "db failed" none)))
      = { Code := 40001, Msg := "bad request", Error := "query: db failed" } ∧
    (Err DebugMode 40001 "bad request"
        (some (GoError.wrapError "query: db failed"
          (GoError.appError 50001 "db failed" none)))).Code ≠ 50001 ∧
    (Err DebugMode 40001 "bad request"
        (some (GoError.wrapError "query: db failed"
          (GoError.appError 50001 "db failed" none)))).Msg ≠ "db failed" := by
  refine ⟨rfl, rfl, rfl, by decide, by decide, by decide⟩

/-- C2 (amended): for an error that is not itself an `AppError` value but has
one on its unwrap chain, `Err` does not look down the chain: the envelope keeps
the caller's default code and message, and outside release mode its `Error` is
the wrapper's own text. -/
theorem Err_wrapped_carrier_keeps_defaults (ginMode : String) (c : Int) (m : String)
    (e : GoError) (a : AppError)
    (hne : assertAppError (some e) = none) (_hw : chainAppError e = some a) :
    (Err ginMode c m (some e)).Code = c ∧
    (Err ginMode c m (some e)).Msg = m ∧
    (ginMode ≠ ReleaseMode → (Err ginMode c m (some e)).Error = e.Error) := by
  rw [Err_of_assert_none ginMode c m (some e) hne]
  by_cases hm : ginMode ≠ ReleaseMode <;> simp [hm]

/-- Witness for C2 (amended), at the wrapper of the counterexample. -/
theorem Err_wrapped_carrier_keeps_defaults_witness :
    assertAppError
        (some (GoError.wrapError "query: db failed"
          (GoError.appError 50001 "db failed" none))) = none ∧
    chainAppError (GoError.wrapError "query: db failed"
        (GoError.appError 50001 "db failed" none))
      = some { Code := 50001, Msg := "db failed", RawError := none } ∧
    ((Err DebugMode 40001 "bad request"
        (some (GoError.wrapError "query: db failed"
          (GoError.appError 50001 "db failed" none)))).Code = 40001 ∧
     (Err DebugMode 40001 "bad request"
        (some (GoError.wrapError "query: db failed"
          (GoError.appError 50001 "db failed" none)))).Msg = "bad request" ∧
     (DebugMode ≠ ReleaseMode →
      (Err DebugMode 40001 "bad request"
        (some (GoError.wrapError "query: db failed"
          (GoError.appError 50001 "db failed" none)))).Error
        = (GoError.wrapError "query: db failed"
          (GoError.appError 50001 "db failed" none)).Error)) :=
  ⟨rfl, rfl,
    Err_wrapped_carrier_keeps_defaults DebugMode 40001 "bad request"
      (GoError.wrapError "query: db failed" (GoError.appError 50001 "db failed" none))
      { Code := 50001, Msg := "db failed", RawError := none } rfl rfl⟩

/-! Disclosure of the diagnostic text -/

/-- C3 (disclosure law, hardened mode): in release mode, for every default
code and message and every cause (nil, a raw error, a carrier with or without
an inner cause), the `Error` field of the envelope is the empty string. -/
theorem Err_release_hides_error (c : Int) (m : String) (err : Option GoError) :
    (Err ReleaseMode c m err).Error = "" := by
  cases h : assertAppError err with
  | none =>
    rw [Err_of_assert_none ReleaseMode c m err h]
    cases err <;> simp
  | some a =>
    rw [Err_of_assert_some ReleaseMode c m err a h]
    cases a.RawError <;> simp

/-- C4 (disclosure law, non-hardened mode): when the mode is not release, for
every default code and message, the `Error` field is the text of the cause when
the cause is a non-nil error that is not a carrier, and the text of the
carrier's `RawError` when the cause is a carrier (empty when the carrier has no
`RawError`). The two examples of the spec evaluate as stated. -/
theorem Err_nonrelease_discloses (ginMode : String) (hmode : ginMode ≠ ReleaseMode)
    (c : Int) (m : String) :
    (∀ e : GoError, assertAppError (some e) = none →
      (Err ginMode c m (some e)).Error = e.Error) ∧
    (∀ a : AppError,
      (Err ginMode c m (some a.toError)).Error =
        match a.RawError with
        | some r => r.Error
        | none => "") ∧
    Err ginMode 40001 "bad request" (some (GoError.errorString "disk full"))
      = { Code := 40001, Msg := "bad request", Error := "disk full" } ∧
    Err ginMode 40001 "bad request"
        (some (NewError 50001 "db failed" (some (GoError.errorString "timeout"))).toError)
      = { Code := 50001, Msg := "db failed", Error := "timeout" } := by
  refine ⟨?_, ?_, ?_, ?_⟩
  · intro e he
    rw [Err_of_assert_none ginMode c m (some e) he]
    simp [hmode]
  · intro a
    rw [Err_of_assert_some ginMode c m _ a (assertAppError_toError a)]
    cases a.RawError <;> simp [hmode]
  · rw [Err_of_assert_none ginMode 40001 "bad request"
      (some (GoError.errorString "disk full")) rfl]
    simp [hmode, GoError.Error]
  · rw [Err_of_assert_some ginMode 40001 "bad request" _ _ (assertAppError_toError _)]
    simp [hmode, GoError.Error, NewError]

/-- Witness for C4, in debug mode with default code 40001 and message
"bad request". -/
theorem Err_nonrelease_discloses_witness :
    DebugMode ≠ ReleaseMode ∧
    ((∀ e : GoError, assertAppError (some e) = none →
      (Err DebugMode 40001 "bad request" (some e)).Error = e.Error) ∧
    (∀ a : AppError,
      (Err DebugMode 40001 "bad request" (some a.toError)).Error =
        match a.RawError with
        | some r => r.Error
        | none => "") ∧
    Err DebugMode 40001 "bad request" (some (GoError.errorString "disk full"))
      = { Code := 40001, Msg := "bad request", Error := "disk full" } ∧
    Err DebugMode 40001 "bad request"
        (some (NewError 50001 "db failed" (some (GoError.errorString "timeout"))).toError)
      = { Code := 50001, Msg := "db failed", Error := "timeout" }) :=
  ⟨by decide, Err_nonrelease_discloses DebugMode (by decide) 40001 "bad request"⟩

/-- C5 (caller defaults): for a cause that is not a carrier (nil or a raw
error), in any mode, `Err c m cause` has `Code = c` and `Msg = m`; for the nil
cause the `Error` field is empty in any mode; and
`Err 40001 "bad request" nil` is the envelope (40001, "bad request", ""). -/
theorem Err_noncarrier_keeps_defaults (ginMode : String) (c : Int) (m : String)
    (err : Option GoError) (h : assertAppError err = none) :
    (Err ginMode c m err).Code = c ∧
    (Err ginMode c m err).Msg = m ∧
    (Err ginMode c m none).Error = "" ∧
    Err ginMode 40001 "bad request" none
      = { Code := 40001, Msg := "bad request", Error := "" } := by
  rw [Err_of_assert_none ginMode c m err h]
  refine ⟨?_, ?_, rfl, rfl⟩
  · cases err with
    | none => rfl
    | some e => by_cases hm : ginMode ≠ ReleaseMode <;> simp [hm]
  · cases err with
    | none => rfl
    | some e => by_cases hm : ginMode ≠ ReleaseMode <;> simp [hm]

/-- Witness for C5, at the raw error "disk full" in release mode. -/
theorem Err_noncarrier_keeps_defaults_witness :
    assertAppError (some (GoError.errorString "disk full")) = none ∧
    ((Err ReleaseMode 40001 "bad request" (some (GoError.errorString "disk full"))).Code
        = 40001 ∧
     (Err ReleaseMode 40001 "bad request" (some (GoError.errorString "disk full"))).Msg
        = "bad request" ∧
     (Err ReleaseMode 40001 "bad request" none).Error = "" ∧
     Err ReleaseMode 40001 "bad request" none
        = { Code := 40001, Msg := "bad request", Error := "" }) :=
  ⟨rfl, Err_noncarrier_keeps_defaults ReleaseMode 40001 "bad request"
    (some (GoError.errorString "disk full")) rfl⟩

/-! The convenience reducers with an empty message -/

/-- C6 (counterexample): with the carrier `AppError(40004, "object exists",
nil)` as cause, `DBErr "" cause` is the envelope (40004, "object exists", ""):
its code is not 50001 and its message is not the default database message. -/
theorem DBErr_carrier_overrides_default :
    DBErr ReleaseMode "" (some (NewError 40004 "object exists" none).toError)
      = { Code := 40004, Msg := "object exists", Error := "" } ∧
    (DBErr ReleaseMode "" (some (NewError 40004 "object exists" none).toError)).Code
      ≠ CodeDBError ∧
    (DBErr ReleaseMode "" (some (NewError 40004 "object exists" none).toError)).Msg
      ≠ "数据库操作失败" := by
  refine ⟨by decide, by decide, by decide⟩

/-- C6 (amended): for every cause that is not a carrier (nil or a raw error)
and any mode, `DBErr "" err` has the default message "数据库操作失败" and the
code `CodeDBError = 50001`; for a cause that is a carrier the envelope has the
carrier's code and message. -/
theorem DBErr_default_substitution (ginMode : String) (err : Option GoError)
    (h : assertAppError err = none) :
    (DBErr ginMode "" err).Msg = "数据库操作失败" ∧
    (DBErr ginMode "" err).Code = CodeDBError ∧
    CodeDBError = 50001 ∧
    ∀ a : AppError,
      (DBErr ginMode "" (some a.toError)).Code = a.Code ∧
      (DBErr ginMode "" (some a.toError)).Msg = a.Msg := by
  have hd : ∀ x : Option GoError,
      DBErr ginMode "" x = Err ginMode CodeDBError "数据库操作失败" x := fun _ => rfl
  refine ⟨?_, ?_, rfl, fun a => ?_⟩
  · rw [hd]
    exact (Err_noncarrier_defaults ginMode CodeDBError _ err h).2
  · rw [hd]
    exact (Err_noncarrier_defaults ginMode CodeDBError _ err h).1
  · rw [hd]
    exact Err_carrier_fields ginMode CodeDBError _ a

/-- Witness for C6 (amended), at the nil cause in release mode. -/
theorem DBErr_default_substitution_witness :
    assertAppError none = none ∧
    ((DBErr ReleaseMode "" none).Msg = "数据库操作失败" ∧
     (DBErr ReleaseMode "" none).Code = CodeDBError ∧
     CodeDBError = 50001 ∧
     ∀ a : AppError,
      (DBErr ReleaseMode "" (some a.toError)).Code = a.Code ∧
      (DBErr ReleaseMode "" (some a.toError)).Msg = a.Msg) :=
  ⟨rfl, DBErr_default_substitution ReleaseMode none rfl⟩

/-- C7 (counterexample): with the carrier `AppError(50001, "db failed", nil)`
as cause, `ParamErr "" cause` is the envelope (50001, "db failed", ""): its
code is not 40001 and its message is not the default parameter message. -/
theorem ParamErr_carrier_overrides_default :
    ParamErr ReleaseMode "" (some (NewError 50001 "db failed" none).toError)
      = { Code := 50001, Msg := "db failed", Error := "" } ∧
    (ParamErr ReleaseMode "" (some (NewError 50001 "db failed" none).toError)).Code
      ≠ CodeParamErr ∧
    (ParamErr ReleaseMode "" (some (NewError 50001 "db failed" none).toError)).Msg
      ≠ "参数错误" := by
  refine ⟨by decide, by decide, by decide⟩

/-- C7 (amended): for every cause that is not a carrier (nil or a raw error)
and any mode, `ParamErr "" err` has the default message "参数错误" and the code
`CodeParamErr = 40001`; for a cause that is a carrier the envelope has the
carrier's code and message. -/
theorem ParamErr_default_substitution (ginMode : String) (err : Option GoError)
    (h : assertAppError err = none) :
    (ParamErr ginMode "" err).Msg = "参数错误" ∧
    (ParamErr ginMode "" err).Code = CodeParamErr ∧
    CodeParamErr = 40001 ∧
    ∀ a : AppError,
      (ParamErr ginMode "" (some a.toError)).Code = a.Code ∧
      (ParamErr ginMode "" (some a.toError)).Msg = a.Msg := by
  have hd : ∀ x : Option GoError,
      ParamErr ginMode "" x = Err ginMode CodeParamErr "参数错误" x := fun _ => rfl
  refine ⟨?_, ?_, rfl, fun a => ?_⟩
  · rw [hd]
    exact (Err_noncarrier_defaults ginMode CodeParamErr _ err h).2
  · rw [hd]
    exact (Err_noncarrier_defaults ginMode CodeParamErr _ err h).1
  · rw [hd]
    exact Err_carrier_fields ginMode CodeParamErr _ a

/-- Witness for C7 (amended), at the raw error "strconv: bad id" in debug
mode. -/
theorem ParamErr_default_substitution_witness :
    assertAppError (some (GoError.errorString "strconv: bad id")) = none ∧
    ((ParamErr DebugMode "" (some (GoError.errorString "strconv: bad id"))).Msg
        = "参数错误" ∧
     (ParamErr DebugMode "" (some (GoError.errorString "strconv: bad id"))).Code
        = CodeParamErr ∧
     CodeParamErr = 40001 ∧
     ∀ a : AppError,
      (ParamErr DebugMode "" (some a.toError)).Code = a.Code ∧
      (ParamErr DebugMode "" (some a.toError)).Msg = a.Msg) :=
  ⟨rfl, ParamErr_default_substitution DebugMode
    (some (GoError.errorString "strconv: bad id")) rfl⟩

/-! The carrier's own operations -/

/-- C8 (round trip envelope, carrier, envelope): for every envelope `e`,
`NewErrorFromResponse` of a pointer to `e` returns a carrier with the code and
message of `e`, and reducing that carrier with any default code and message,
in any mode, gives an envelope with the code and message of `e`. -/
theorem NewErrorFromResponse_round_trip (e : Response) :
    ∃ a : AppError,
      NewErrorFromResponse (some e) = some a ∧
      a.Code = e.Code ∧ a.Msg = e.Msg ∧
      ∀ (ginMode : String) (c : Int) (m : String),
        (Err ginMode c m (some a.toError)).Code = e.Code ∧
        (Err ginMode c m (some a.toError)).Msg = e.Msg :=
  ⟨{ Code := e.Code, Msg := e.Msg, RawError := some (GoError.errorString e.Error) },
    rfl, rfl, rfl, fun ginMode c m => Err_carrier_fields ginMode c m _⟩

/-- C9 (display text): for every code, every message (the empty one included)
and every cause (nil or not), `NewError(code, msg, cause).Error()` is `msg`,
also when the method is called through the `error` interface; so the text is
the same for any other code and cause. -/
theorem NewError_Error (code : Int) (msg : String) (cause : Option GoError) :
    (NewError code msg cause).Error = msg ∧
    (NewError code msg cause).toError.Error = msg ∧
    ∀ (code2 : Int) (cause2 : Option GoError),
      (NewError code2 msg cause2).Error = (NewError code msg cause).Error :=
  ⟨rfl, rfl, fun _ _ => rfl⟩

/-- C10 (attaching a cause): for every carrier `c` and every error `raw`
(nil included), `WithError` on a pointer to `c` returns a carrier whose
`RawError` is `raw`, whatever `c.RawError` was, and whose `Code` and `Msg` are
those of `c`; after the call the receiver holds the same value as the returned
carrier. -/
theorem WithError_overwrites_cause (c : AppError) (raw : Option GoError) :
    ∃ recv ret : AppError,
      AppError.WithError (some c) raw = some (recv, ret) ∧
      ret.RawError = raw ∧ ret.Code = c.Code ∧ ret.Msg = c.Msg ∧
      recv.RawError = ret.RawError ∧ recv.Code = ret.Code ∧ recv.Msg = ret.Msg ∧
      recv = ret :=
  ⟨{ c with RawError := raw }, { c with RawError := raw },
    rfl, rfl, rfl, rfl, rfl, rfl, rfl, rfl⟩

/-! The code constants -/

/-- C11 (evaluation at the failing constants): `CodeUploadSessionExpired`,
`CodeInvalidChunkIndex` and `CodeInvalidContentLength` are declared as 400011,
400012 and 400013; each of them belongs to none of the three classes of the
taxonomy (sentinel, three-digit, five-digit starting with 4 or 5), and they are
the only constants of the block that are not in exactly one class. -/
theorem codeConstants_outside_taxonomy :
    CodeUploadSessionExpired = 400011 ∧
    CodeInvalidChunkIndex = 400012 ∧
    CodeInvalidContentLength = 400013 ∧
    taxonomyClasses CodeUploadSessionExpired = 0 ∧
    taxonomyClasses CodeInvalidChunkIndex = 0 ∧
    taxonomyClasses CodeInvalidContentLength = 0 ∧
    codeConstants.filter (fun p => !inTaxonomy p.2) =
      [("CodeUploadSessionExpired", 400011), ("CodeInvalidChunkIndex", 400012),
       ("CodeInvalidContentLength", 400013)] := by
  refine ⟨rfl, rfl, rfl, by decide, by decide, by decide, by decide⟩

/-- C12 (distinct codes): the block declares 41 constants, no two entries of
the block have the same value, and no two have the same name; so a value of the
block belongs to a single constant. -/
theorem codeConstants_pairwise_distinct :
    codeConstants.length = 41 ∧
    codeConstants.Pairwise (fun p q => p.2 ≠ q.2) ∧
    (codeConstants.map Prod.snd).Nodup ∧
    (codeConstants.map Prod.fst).Nodup := by
  refine ⟨rfl, by decide, by decide, by decide⟩

/-! Totality of the reducer -/

/-- C13 (counterexample): the typed nil pointer `(*AppError)(nil)` stored in
the interface is a non-nil cause that is not a carrier; in debug mode
`Err 40001 "bad request"` on it reaches the call `err.Error()` and panics, and
so does `Err` on a carrier whose `RawError` is that pointer: no envelope is
returned. -/
theorem ErrChecked_panics_on_nil_pointer :
    (some GoIface.nilAppErrorPtr).isSome = true ∧
    (assertAppErrorIface (some GoIface.nilAppErrorPtr)).isNone = true ∧
    ErrChecked DebugMode 40001 "bad request" (some GoIface.nilAppErrorPtr)
      = Except.error Panic.nilReceiver ∧
    ErrChecked DebugMode 40001 "bad request"
        (some (GoIface.appError 50001 "db failed" (some GoIface.nilAppErrorPtr)))
      = Except.error Panic.nilReceiver := by
  refine ⟨rfl, rfl, rfl, rfl⟩

/-- C13 (amended): with the call `err.Error()` modelled as a step that panics
on the nil interface and on a nil `*AppError`, `Err` returns an envelope for
every default code, default message and cause, provided the mode is release or
the diagnostic source (the cause, or the `RawError` of a carrier) is not a
typed nil pointer; the panic is then never the result, so the read of the text
is reached only on a present source. On every cause built without pointers
(nil, a raw error, a carrier with or without an inner cause) the envelope is
the one the pure embedding `Err` computes, in every mode. -/
theorem ErrChecked_returns_on_readable_source (ginMode : String) (c : Int) (m : String)
    (err : Option GoIface)
    (h : ginMode = ReleaseMode ∨ diagnosticSource err ≠ some GoIface.nilAppErrorPtr) :
    (∃ r : Response, ErrChecked ginMode c m err = Except.ok r) ∧
    (∀ p : Panic, ErrChecked ginMode c m err ≠ Except.error p) ∧
    (∀ e : Option GoError,
      ErrChecked ginMode c m (e.map GoError.toIface) = Except.ok (Err ginMode c m e)) ∧
    callError none = Except.error Panic.nilInterface := by
  refine ⟨ErrChecked_ok_of_source ginMode c m err h, fun p hp => ?_,
    ErrChecked_toIface ginMode c m, rfl⟩
  obtain ⟨r, hr⟩ := ErrChecked_ok_of_source ginMode c m err h
  rw [hr] at hp
  cases hp

/-- Witness for C13 (amended), in debug mode at a carrier whose `RawError` is
a non-nil `*AppError`: the text read is reached and returns. -/
theorem ErrChecked_returns_on_readable_source_witness :
    (DebugMode = ReleaseMode ∨
      diagnosticSource
          (some (GoIface.appError 50001 "db failed"
            (some (GoIface.appErrorPtr 40004 "object exists" none))))
        ≠ some GoIface.nilAppErrorPtr) ∧
    ErrChecked DebugMode 40001 "bad request"
        (some (GoIface.appError 50001 "db failed"
          (some (GoIface.appErrorPtr 40004 "object exists" none))))
      = Except.ok { Code := 50001, Msg := "db failed", Error := "object exists" } ∧
    ((∃ r : Response,
      ErrChecked DebugMode 40001 "bad request"
          (some (GoIface.appError 50001 "db failed"
            (some (GoIface.appErrorPtr 40004 "object exists" none))))
        = Except.ok r) ∧
     (∀ p : Panic,
      ErrChecked DebugMode 40001 "bad request"
          (some (GoIface.appError 50001 "db failed"
            (some (GoIface.appErrorPtr 40004 "object exists" none))))
        ≠ Except.error p) ∧
     (∀ e : Option GoError,
      ErrChecked DebugMode 40001 "bad request" (e.map GoError.toIface)
        = Except.ok (Err DebugMode 40001 "bad request" e)) ∧
     callError none = Except.error Panic.nilInterface) :=
  ⟨Or.inr (by simp [diagnosticSource, assertAppErrorIface]), rfl,
    ErrChecked_returns_on_readable_source DebugMode 40001 "bad request"
      (some (GoIface.appError 50001 "db failed"
        (some (GoIface.appErrorPtr 40004 "object exists" none))))
      (Or.inr (by simp [diagnosticSource, assertAppErrorIface]))⟩

/-! Delegation of the convenience reducers -/

/-- C14 (delegation): for every message, cause and mode, `DBErr m e` is
`Err 50001 m1 e` and `ParamErr m e` is `Err 40001 m2 e`, where `m1` and `m2`
are `m` when `m` is not empty and the fixed default of the operation when it
is; a non-empty message reaches `Err` unchanged, and it is the `Msg` of the
envelope whenever the cause is not a carrier. -/
theorem DBErr_ParamErr_delegate (ginMode : String) (m : String) (e : Option GoError) :
    DBErr ginMode m e = Err ginMode 50001 (if m = "" then "数据库操作失败" else m) e ∧
    ParamErr ginMode m e = Err ginMode 40001 (if m = "" then "参数错误" else m) e ∧
    (m ≠ "" →
      DBErr ginMode m e = Err ginMode 50001 m e ∧
      ParamErr ginMode m e = Err ginMode 40001 m e) ∧
    (m ≠ "" → assertAppError e = none →
      (DBErr ginMode m e).Msg = m ∧ (ParamErr ginMode m e).Msg = m) := by
  refine ⟨rfl, rfl, fun hm => ?_, fun hm he => ?_⟩
  · unfold DBErr ParamErr
    simp only [if_neg hm]
    exact ⟨rfl, rfl⟩
  · unfold DBErr ParamErr
    simp only [if_neg hm]
    exact ⟨(Err_noncarrier_defaults ginMode CodeDBError m e he).2,
      (Err_noncarrier_defaults ginMode CodeParamErr m e he).2⟩

/-- Witness for C14, at the message "record not found" and the raw cause
"sql: no rows" in debug mode. -/
theorem DBErr_ParamErr_delegate_witness :
    "record not found" ≠ "" ∧
    assertAppError (some (GoError.errorString "sql: no rows")) = none ∧
    DBErr DebugMode "record not found" (some (GoError.errorString "sql: no rows"))
      = Err DebugMode 50001 "record not found"
          (some (GoError.errorString "sql: no rows")) ∧
    ParamErr DebugMode "record not found" (some (GoError.errorString "sql: no rows"))
      = Err DebugMode 40001 "record not found"
          (some (GoError.errorString "sql: no rows")) ∧
    (DBErr DebugMode "record not found"
      (some (GoError.errorString "sql: no rows"))).Msg = "record not found" ∧
    (ParamErr DebugMode "record not found"
      (some (GoError.errorString "sql: no rows"))).Msg = "record not found" :=
  ⟨by decide, rfl,
    ((DBErr_ParamErr_delegate DebugMode "record not found"
      (some (GoError.errorString "sql: no rows"))).2.2.1 (by decide)).1,
    ((DBErr_ParamErr_delegate DebugMode "record not found"
      (some (GoError.errorString "sql: no rows"))).2.2.1 (by decide)).2,
    ((DBErr_ParamErr_delegate DebugMode "record not found"
      (some (GoError.errorString "sql: no rows"))).2.2.2 (by decide) rfl).1,
    ((DBErr_ParamErr_delegate DebugMode "record not found"
      (some (GoError.errorString "sql: no rows"))).2.2.2 (by decide) rfl).2⟩

/-! Nested carriers -/

/-- C15 (one level of unwrapping): when the cause is a carrier
`AppError(C2, M2, inner)` whose own cause is the carrier `AppError(C3, M3, r)`,
`Err c m cause` has `Code = C2` and `Msg = M2` in any mode, and outside release
mode its `Error` is `M3`, the display message of the inner carrier, whatever
`r` is. -/
theorem Err_unwraps_one_level (ginMode : String) (c : Int) (m : String)
    (C2 : Int) (M2 : String) (C3 : Int) (M3 : String) (r : Option GoError) :
    (Err ginMode c m
      (some (NewError C2 M2 (some (NewError C3 M3 r).toError)).toError)).Code = C2 ∧
    (Err ginMode c m
      (some (NewError C2 M2 (some (NewError C3 M3 r).toError)).toError)).Msg = M2 ∧
    (ginMode ≠ ReleaseMode →
      (Err ginMode c m
        (some (NewError C2 M2 (some (NewError C3 M3 r).toError)).toError)).Error = M3) := by
  rw [Err_of_assert_some ginMode c m _ _ (assertAppError_toError _)]
  by_cases hm : ginMode ≠ ReleaseMode <;>
    simp [hm, NewError, AppError.toError, GoError.Error, AppError.Error]

/-- Witness for C15: around the inner carrier (50001, "db failed") with raw
cause "timeout", in debug mode, the `Error` of the envelope is "db failed" and
not "timeout". -/
theorem Err_unwraps_one_level_witness :
    DebugMode ≠ ReleaseMode ∧
    (Err DebugMode 40001 "bad request"
      (some (NewError 40004 "object exists"
        (some (NewError 50001 "db failed"
          (some (GoError.errorString "timeout"))).toError)).toError)).Error
      = "db failed" ∧
    "db failed" ≠ (GoError.errorString "timeout").Error :=
  ⟨by decide,
    (Err_unwraps_one_level DebugMode 40001 "bad request" 40004 "object exists" 50001
      "db failed" (some (GoError.errorString "timeout"))).2.2 (by decide),
    by decide⟩

/-! The full round trip through an envelope -/

/-- C16 (full round trip): for every envelope `e`, `NewErrorFromResponse` of a
pointer to `e` returns a carrier whose cause is present and has the text
`e.Error` (also when that text is empty); reducing this carrier outside release
mode, with any default code and message, gives back `e` field by field, and in
release mode it gives the code and message of `e` with an empty `Error`. -/
theorem NewErrorFromResponse_full_round_trip (e : Response) :
    ∃ (a : AppError) (r : GoError),
      NewErrorFromResponse (some e) = some a ∧
      a.RawError = some r ∧ r.Error = e.Error ∧
      (∀ (ginMode : String) (c : Int) (m : String), ginMode ≠ ReleaseMode →
        (Err ginMode c m (some a.toError)).Code = e.Code ∧
        (Err ginMode c m (some a.toError)).Msg = e.Msg ∧
        (Err ginMode c m (some a.toError)).Error = e.Error ∧
        Err ginMode c m (some a.toError) = e) ∧
      (∀ (c : Int) (m : String),
        Err ReleaseMode c m (some a.toError)
          = { Code := e.Code, Msg := e.Msg, Error := "" }) := by
  refine ⟨{ Code := e.Code, Msg := e.Msg, RawError := some (GoError.errorString e.Error) },
    GoError.errorString e.Error, rfl, rfl, rfl, fun ginMode c m hm => ?_, fun c m => ?_⟩
  · rw [Err_of_assert_some ginMode c m _ _ (assertAppError_toError _)]
    simp [hm, GoError.Error]
  · rw [Err_of_assert_some ReleaseMode c m _ _ (assertAppError_toError _)]
    simp

/-- Witness for C16, at the envelope (40004, "object exists", "") with an
empty diagnostic text, in debug mode. -/
theorem NewErrorFromResponse_full_round_trip_witness :
    DebugMode ≠ ReleaseMode ∧
    ∃ (a : AppError) (r : GoError),
      NewErrorFromResponse (some { Code := 40004, Msg := "object exists", Error := "" })
        = some a ∧
      a.RawError = some r ∧ r.Error = "" ∧
      Err DebugMode 50001 "db failed" (some a.toError)
        = { Code := 40004, Msg := "object exists", Error := "" } :=
  ⟨by decide,
    (NewErrorFromResponse_full_round_trip
      { Code := 40004, Msg := "object exists", Error := "" }).elim
      fun a ha => ha.elim fun r hr =>
        ⟨a, r, hr.1, hr.2.1, hr.2.2.1,
          (hr.2.2.2.1 DebugMode 50001 "db failed" (by decide)).2.2.2⟩⟩

end Serializer
